import Mathlib

/-!
Shallow embedding of the `git-safety-agent` core (src/gsa) in Lean 4.

Python values flowing through tool-argument maps and handler results are
modelled by the inductive `Value`; argument maps (`Dict[str, object]`) by
association lists `Args` whose lookup takes the first binding, matching the
unique-key discipline of Python dicts.  Filesystem-dependent primitives
(`os.path.realpath`) and external processes (the `git` binary, `patch`) are
abstracted as oracle parameters; everything else is translated directly from
the source files named in each section.
-/

/-- A Python scalar value (plus a list of strings, which some tool results
carry).  `vstr`/`vbool`/`vint` cover every value the safety core inspects. -/
inductive Value where
  | vstr (s : String)
  | vbool (b : Bool)
  | vint (n : Int)
  | vlist (elems : List String)
  deriving DecidableEq, Repr

/-- Python truthiness (`bool(v)`) for the modelled values. -/
def Value.truthy : Value → Bool
  | .vstr s => s ≠ ""
  | .vbool b => b
  | .vint n => n ≠ 0
  | .vlist l => l ≠ []

/-- Python `str(v)` rendering, used by f-string interpolation in the source. -/
def Value.pyStr : Value → String
  | .vstr s => s
  | .vbool b => if b then "True" else "False"
  | .vint n => toString n
  | .vlist l => toString l

/-- An argument map `Dict[str, object]`, as an association list with unique
keys (first binding wins, matching dict semantics). -/
abbrev Args := List (String × Value)

/-- `args.get(k)`: first binding of `k`, or `None`. -/
def Args.get (args : Args) (k : String) : Option Value :=
  args.lookup k

/-- Truthiness of `args.get(k)` (Python: `bool(None) = False`). -/
def Args.truthyAt (args : Args) (k : String) : Bool :=
  match args.get k with
  | none => false
  | some v => v.truthy

/-- `str(args.get(k))` (Python renders a missing key as `"None"`). -/
def Args.pyStrAt (args : Args) (k : String) : String :=
  match args.get k with
  | none => "None"
  | some v => v.pyStr

/-- Dict assignment / merge-right `d[k] = v`: replaces the binding of `k` in
place if present, appends otherwise (Python dicts keep the key's original
position on overwrite). -/
def Args.set (args : Args) (k : String) (v : Value) : Args :=
  if (args.lookup k).isSome then
    args.map (fun kv => if kv.1 = k then (k, v) else kv)
  else
    args ++ [(k, v)]

/-- A handler-result map `{ok: bool, ...}` (`Dict[str, object]`). -/
abbrev RValue := List (String × Value)

/-! ## src/gsa/safety/policy.py -/

/-- `BLOCKED_GIT_ARGS` from policy.py (a Python set, modelled in source
order; only membership of fragments matters to the checks). -/
def BLOCKED_GIT_ARGS : List String :=
  ["reset --hard", "clean -fd", "push --force", "push -f", "checkout -- ."]

/-- `SENSITIVE_NAMES` from policy.py. -/
def SENSITIVE_NAMES : List String :=
  [".env", ".env.local", "id_rsa", "id_ed25519", "secrets.json", "tokens.json"]

/-- Python `str.startswith`, character-wise. -/
def strStartsWith (s pre : String) : Bool := pre.toList.isPrefixOf s.toList

/-- Python `str.endswith`, character-wise. -/
def strEndsWith (s suf : String) : Bool := suf.toList.isSuffixOf s.toList

/-- `os.path.isabs` on POSIX: the path starts with the separator. -/
def isabs (p : String) : Bool := strStartsWith p "/"

/-- `os.path.join(a, b)` for the shapes reaching it (`b` relative). -/
def joinpath (a b : String) : String :=
  if a = "" then b
  else if strEndsWith a "/" then a ++ b
  else a ++ "/" ++ b

/-- `os.path.basename`: everything after the last separator. -/
def basename (p : String) : String :=
  String.mk ((p.toList.reverse.takeWhile (fun c => c ≠ '/')).reverse)

/-- The canonical form `ensure_in_workspace` computes for its target:
`realpath(os.path.join(root, target))` for a relative target, `realpath(target)`
for an absolute one, where `root = realpath(workspace)` and `R` abstracts the
filesystem-dependent `realpath` (symlink and `..` resolution). -/
def canonicalTarget (R : String → String) (workspace target : String) : String :=
  if isabs target then R target else R (joinpath (R workspace) target)

/-- `ensure_in_workspace(workspace, target)` from policy.py: canonicalize
both sides, then require the target to be the root itself or to start with
`root + os.sep`; otherwise raise `PolicyError` (modelled as `.error`). -/
def ensure_in_workspace (R : String → String) (workspace target : String) :
    Except String String :=
  let root := R workspace
  let target_path := canonicalTarget R workspace target
  if ¬ (strStartsWith target_path (root ++ "/")) ∧ target_path ≠ root then
    .error ("路径越界：" ++ target)
  else
    .ok target_path

/-- `deny_if_sensitive(path)` from policy.py. -/
def deny_if_sensitive (path : String) : Except String Unit :=
  let name := basename path
  if SENSITIVE_NAMES.contains name then
    .error ("拒绝访问敏感文件：" ++ name)
  else
    .ok ()

/-- `validate_git_args(args)` from policy.py: join the tokens with spaces and
reject if any blocked fragment occurs as a substring of the joined string. -/
def validate_git_args (args : List String) : Except String Unit :=
  let joined := String.intercalate " " args
  match BLOCKED_GIT_ARGS.find? (fun blocked => decide (blocked.toList <:+: joined.toList)) with
  | some blocked => .error ("禁止危险 git 操作：" ++ blocked)
  | none => .ok ()

/-- `limit_write_steps(total_steps)` from policy.py: more than 10 write steps
raise `PolicyError` (modelled as `.error` carrying `str(exc)`). -/
def limit_write_steps (total_steps : Nat) : Except String Unit :=
  if total_steps > 10 then
    .error "单次写操作步骤超过 10，已拒绝"
  else
    .ok ()

/-! ## src/gsa/safety/risk.py -/

/-- `RISK_MAP` from risk.py: capability name → (level, reason). -/
def RISK_MAP : List (String × String × String) :=
  [ ("git_status", "low", "只读操作"),
    ("git_diff", "low", "只读操作"),
    ("git_log", "low", "只读操作"),
    ("git_branch_list", "low", "只读操作"),
    ("git_remote_list", "low", "只读操作"),
    ("git_show", "low", "只读操作"),
    ("git_log_graph", "low", "只读操作"),
    ("file_list", "low", "只读操作"),
    ("file_read", "low", "只读操作"),
    ("file_search", "low", "只读操作"),
    ("index_build", "low", "只读索引构建"),
    ("index_status", "low", "只读操作"),
    ("index_search", "low", "只读操作"),
    ("repo_summarize", "low", "只读操作"),
    ("organize_suggestions", "low", "只读操作"),
    ("git_init", "medium", "初始化仓库会创建 .git 目录"),
    ("git_add", "medium", "会修改暂存区"),
    ("git_commit", "medium", "会创建提交"),
    ("git_switch", "medium", "切换分支可能影响工作区"),
    ("git_create_branch", "medium", "创建分支"),
    ("git_delete_branch", "high", "删除分支"),
    ("git_stash_push", "medium", "保存工作区变更"),
    ("git_stash_pop", "high", "恢复暂存可能引发冲突"),
    ("git_merge", "high", "合并可能引发冲突"),
    ("file_write", "high", "写入文件"),
    ("file_patch", "high", "修改文件") ]

/-- `assess_risk(tool, args)` from risk.py: baseline table lookup (unknown
tools default to medium with the fixed reason), then the per-capability
override checks in source order. -/
def assess_risk (tool : String) (args : Args) : String × String :=
  match RISK_MAP.lookup tool with
  | none => ("medium", "未知工具，默认中风险")
  | some base =>
    if tool = "git_delete_branch" ∧ args.truthyAt "force" then
      ("high", "强制删除分支，风险更高")
    else if tool = "git_switch" ∧ args.truthyAt "create" then
      ("medium", "创建并切换分支")
    else if (tool = "file_write" ∨ tool = "file_patch") ∧ args.truthyAt "path" then
      ("high", "写入/修改文件 " ++ args.pyStrAt "path")
    else
      base

/-! ## src/gsa/agent/schema.py -/

/-- `SafetyLevel = Literal["low", "medium", "high"]` (pydantic enforces the
closed set). -/
inductive SafetyLevel where
  | low
  | medium
  | high
  deriving DecidableEq, Repr

/-- `Step` from schema.py. -/
structure Step where
  tool : String
  args : Args
  safety_level : SafetyLevel
  safety_reason : String
  dry_run : Bool := true
  deriving DecidableEq, Repr

/-- `Plan` from schema.py. -/
structure Plan where
  intent : String
  assumptions : List String := []
  questions : List String := []
  needs_confirmation : Bool := false
  steps : List Step := []
  deriving DecidableEq, Repr

/-! ## src/gsa/safety/confirmer.py -/

/-- The per-step body of `apply_confirmation`'s loop: a step whose
`safety_level` is medium or high gets `dry_run = False`. -/
def confirmStep (s : Step) : Step :=
  if s.safety_level = .medium ∨ s.safety_level = .high then
    { s with dry_run := false }
  else
    s

/-- `apply_confirmation(plan, confirmed)` from confirmer.py (the in-place
mutation rendered functionally): when confirmed, flip `dry_run` off on every
medium/high step; otherwise do nothing. -/
def apply_confirmation (plan : Plan) (confirmed : Bool) : Plan :=
  if confirmed then
    { plan with steps := plan.steps.map confirmStep }
  else
    plan

/-! ## src/gsa/safety/validator.py -/

/-- `WRITE_TOOLS` from validator.py. -/
def WRITE_TOOLS : List String :=
  [ "git_init", "git_add", "git_commit", "git_switch", "git_create_branch",
    "git_delete_branch", "git_stash_push", "git_stash_pop", "git_merge",
    "file_write", "file_patch" ]

/-- `validate_plan(plan, registered_tools)` from validator.py, accumulating
error strings in the source's order: the empty-steps rule, per-step
registration, then (only when write steps exist) the volume check — whose
`PolicyError` is caught and appended as a string — the confirmation rule and
the per-write-step level/reason rules. -/
def validate_plan (plan : Plan) (registered_tools : List String) : List String :=
  let e0 : List String :=
    if plan.steps = [] ∧ plan.questions = [] then
      ["steps 为空时必须提供 questions"]
    else []
  let e1 : List String :=
    plan.steps.filterMap (fun s =>
      if registered_tools.contains s.tool then none
      else some ("未注册工具：" ++ s.tool))
  let write_steps := plan.steps.filter (fun s => WRITE_TOOLS.contains s.tool)
  let e2 : List String :=
    if write_steps = [] then []
    else
      (match limit_write_steps write_steps.length with
       | .ok _ => []
       | .error msg => [msg]) ++
      (if plan.needs_confirmation then []
       else ["存在写操作但 needs_confirmation=false"]) ++
      write_steps.flatMap (fun s =>
        (if s.safety_level = .medium ∨ s.safety_level = .high then []
         else ["写操作风险等级必须为 medium/high：" ++ s.tool]) ++
        (if s.safety_reason = "" then ["写操作缺少安全原因：" ++ s.tool]
         else []))
  e0 ++ e1 ++ e2

/-! ## src/gsa/mcp/registry.py

A handler's accepted-argument contract is what `inspect.signature` observes
on it: either a fixed set of declared keyword parameters, or an open-ended
`**kwargs` set (`VAR_KEYWORD`).  The handler body itself is abstracted as a
function from the received argument map to a result map. -/

/-- The argument contract plus body of a registered callable. -/
inductive Handler where
  | fixed (params : List String) (f : Args → RValue)
  | varkw (f : Args → RValue)

/-- `ToolSpec` from registry.py. -/
structure ToolSpec where
  name : String
  description : String
  func : Handler

/-- `ToolRegistry._tools`: the name-keyed dict, as a finite map. -/
def ToolRegistry := String → Option ToolSpec

/-- A registry with no tools (`ToolRegistry()`). -/
def ToolRegistry.empty : ToolRegistry := fun _ => none

/-- `ToolRegistry.register(name, description, func)`: plain dict assignment —
it always succeeds and silently replaces any existing binding of `name`. -/
def ToolRegistry.register (reg : ToolRegistry) (name description : String)
    (func : Handler) : ToolRegistry :=
  fun n => if n = name then some ⟨name, description, func⟩ else reg n

/-- `ToolRegistry.call(name, args)` from registry.py: unknown names raise
`ValueError` (modelled as `.error`); a `**kwargs` handler receives the full
map; a fixed-signature handler receives only the keys it declares. -/
def ToolRegistry.call (reg : ToolRegistry) (name : String) (args : Args) :
    Except String RValue :=
  match reg name with
  | none => .error ("未注册工具：" ++ name)
  | some spec =>
    match spec.func with
    | .varkw f => .ok (f args)
    | .fixed params f => .ok (f (args.filter (fun kv => params.contains kv.1)))

/-! ## src/gsa/mcp/client.py

`MCPClient._send` writes one request line and then loops over `readline`:
an empty read means the channel closed (`RuntimeError`), a line that
`json.loads` cannot parse is skipped, a parsed response whose `id` differs
from the outstanding request id is skipped, and the matching response either
raises the carried error message or yields the result. -/

/-- One line read from the worker's stdout: either unparseable output or a
parsed response object with its `id`, optional `error.message` and `result`. -/
inductive Line where
  | garbage
  | resp (id : Int) (error : Option String) (result : RValue)
  deriving Repr

/-- Outcome of `_send`'s receive loop: a raised transport error (channel
closed), a raised RPC error (error response), or a returned result. -/
inductive SendOutcome where
  | transportClosed
  | rpcError (msg : String)
  | result (v : RValue)
  deriving DecidableEq, Repr

/-- The receive loop of `MCPClient._send`, over the stream of stdout lines
(the empty list marks end-of-stream, where `readline` returns `""`). -/
def recvLoop (myId : Int) : List Line → SendOutcome
  | [] => .transportClosed
  | .garbage :: rest => recvLoop myId rest
  | .resp i err res :: rest =>
    if i = myId then
      match err with
      | some m => .rpcError m
      | none => .result res
    else
      recvLoop myId rest

/-! ## src/gsa/mcp/server.py (the `tools/call` path)

`MCPServer.handle` runs `registry.call` inside try/except and wraps the
outcome into a response line: a normal return becomes a `result` response,
a raised exception becomes an `error` response with `str(exc)` as message. -/

/-- The response line `handle` emits for a `tools/call` request. -/
def serverRespond (reg : ToolRegistry) (reqId : Int) (name : String)
    (args : Args) : Line :=
  match reg.call name args with
  | .ok r => .resp reqId none r
  | .error e => .resp reqId (some e) []

/-- End-to-end `MCPClient.call_tool` against a local worker holding `reg`:
the client raises the error response's message (`.error`) or returns the
result.  (`recvLoop` on the single matching response line reduces to this.) -/
def invokeVia (reg : ToolRegistry) (name : String) (args : Args) :
    Except String RValue :=
  match reg.call name args with
  | .ok r => .ok r
  | .error e => .error e

/-! ## src/gsa/agent/orchestrator.py -/

/-- One entry of `execute`'s `results` list:
`{"tool": ..., "ok": True, "result": resp}` or
`{"tool": ..., "ok": False, "error": str(exc)}`. -/
structure StepResult where
  tool : String
  ok : Bool
  result : Option RValue
  error : Option String
  deriving DecidableEq, Repr

/-- The argument map `step.args | {"dry_run": step.dry_run}` the orchestrator
sends for a step. -/
def stepPayloadArgs (s : Step) : Args :=
  s.args.set "dry_run" (.vbool s.dry_run)

/-- The invocation `self.mcp.call_tool(step.tool, step.args | {...})`. -/
def stepCall (invoke : String → Args → Except String RValue) (s : Step) :
    Except String RValue :=
  invoke s.tool (stepPayloadArgs s)

/-- The step loop of `Orchestrator.execute`: sequentially invoke each step,
record a success entry and continue on a normal return, record a failure
entry and `break` on a raised exception.  Also returns the trace of tools
actually invoked, in order. -/
def executeSteps (invoke : String → Args → Except String RValue) :
    List Step → List StepResult × List String
  | [] => ([], [])
  | s :: rest =>
    match stepCall invoke s with
    | .ok r =>
      let (res, tr) := executeSteps invoke rest
      (⟨s.tool, true, some r, none⟩ :: res, s.tool :: tr)
    | .error e => ([⟨s.tool, false, none, some e⟩], [s.tool])

/-- `Orchestrator.execute(plan, confirmed)`: apply the Confirmation Gate,
then run the step loop.  Returns (results, invoked-tool trace). -/
def Orchestrator.execute (invoke : String → Args → Except String RValue)
    (plan : Plan) (confirmed : Bool) : List StepResult × List String :=
  executeSteps invoke (apply_confirmation plan confirmed).steps

/-! ## src/gsa/tools — shared process and filesystem abstractions -/

/-- A finished subprocess (`subprocess.CompletedProcess`). -/
structure Proc where
  returncode : Int
  stdout : String
  stderr : String

/-- A git command's argument list (after `git -C workspace`). -/
abbrev Cmd := List String

/-- The external `git` binary, as an oracle from a command to its outcome. -/
abbrev GitOracle := Cmd → Proc

/-- Python `a or b` for strings. -/
def strOr (a b : String) : String := if a = "" then b else a

/-- Python `str.splitlines()` (newline-only approximation: split on `"\n"`
and drop the final empty piece a trailing newline produces). -/
def splitlinesPy (s : String) : List String :=
  let parts := s.splitOn "\n"
  if parts.getLast? = some "" then parts.dropLast else parts

/-- The workspace filesystem, as a path → content map (directories are
implicit; `os.makedirs` is a no-op in this model). -/
structure FS where
  files : List (String × String)
  deriving DecidableEq, Repr

/-- `os.path.exists` on a file path. -/
def FS.existsFile (fs : FS) (p : String) : Bool := (fs.files.lookup p).isSome

/-- Content of a file, `""` when absent (matching `write`'s `old` default). -/
def FS.read (fs : FS) (p : String) : String := (fs.files.lookup p).getD ""

/-- Write/overwrite a file. -/
def FS.setFile (fs : FS) (p c : String) : FS :=
  if (fs.files.lookup p).isSome then
    ⟨fs.files.map (fun kv => if kv.1 = p then (p, c) else kv)⟩
  else
    ⟨fs.files ++ [(p, c)]⟩

/-! ## src/gsa/tools/git_impl.py

`GitTool._run` validates the argument list against the blocked-fragment
policy (a `PolicyError` propagates out of the handler) and then runs the
external `git` binary.  Each handler below additionally returns the trace of
commands it actually issued, in order, so that "the repository state is
untouched" is expressible as "every issued command is a read-only query". -/

/-- `GitTool._run(args)`: policy check, then the git oracle; the issued
command is appended to the trace. -/
def gitRun (git : GitOracle) (tr : List Cmd) (c : Cmd) :
    Except String (Proc × List Cmd) :=
  match validate_git_args c with
  | .error e => .error e
  | .ok _ => .ok (git c, tr ++ [c])

/-- `GitTool._ensure_repo()`: `some errorText` when the workspace is not a
git repository, `none` when it is; plus the trace. -/
def ensureRepo (git : GitOracle) : Except String (Option String × List Cmd) :=
  match gitRun git [] ["rev-parse", "--is-inside-work-tree"] with
  | .error e => .error e
  | .ok (proc, tr) =>
    .ok (if proc.returncode ≠ 0 then
           some (strOr proc.stderr.trim "当前目录不是 git 仓库")
         else none, tr)

namespace GitTool

/-- `GitTool.init_repo`. -/
def init_repo (git : GitOracle) (dry_run : Bool := true) :
    Except String RValue × List Cmd :=
  match gitRun git [] ["rev-parse", "--is-inside-work-tree"] with
  | .error e => (.error e, [])
  | .ok (proc, tr) =>
    if proc.returncode == 0 then
      (.ok [("ok", .vbool false), ("error", .vstr "当前目录已是 git 仓库")], tr)
    else if dry_run then
      (.ok [("ok", .vbool true), ("dry_run", .vbool true), ("cmd", .vstr "git init")], tr)
    else
      match gitRun git tr ["init"] with
      | .error e => (.error e, tr)
      | .ok (p2, tr2) =>
        (.ok [("ok", .vbool (p2.returncode == 0)), ("stdout", .vstr p2.stdout),
              ("stderr", .vstr p2.stderr)], tr2)

/-- `GitTool.add`. -/
def add (git : GitOracle) (paths : List String) (allow_all : Bool := false)
    (dry_run : Bool := true) : Except String RValue × List Cmd :=
  match ensureRepo git with
  | .error e => (.error e, [])
  | .ok (some err, tr) => (.ok [("ok", .vbool false), ("error", .vstr err)], tr)
  | .ok (none, tr) =>
    if paths = [] then
      (.ok [("ok", .vbool false), ("error", .vstr "未提供 paths")], tr)
    else if paths.contains "." ∧ ¬ allow_all then
      (.ok [("ok", .vbool false),
            ("error", .vstr "禁止默认 add .，请显式 allow_all=true")], tr)
    else
      match gitRun git tr ["status", "--porcelain"] with
      | .error e => (.error e, tr)
      | .ok (procFiles, tr2) =>
        let files := ((splitlinesPy procFiles.stdout).filter
          (fun line => line.trim ≠ "")).map (fun line => line.drop 3)
        if dry_run then
          (.ok [("ok", .vbool true), ("dry_run", .vbool true),
                ("files", .vlist files), ("cmd", .vstr "git add")], tr2)
        else
          match gitRun git tr2 (["add"] ++ paths) with
          | .error e => (.error e, tr2)
          | .ok (p2, tr3) =>
            (.ok [("ok", .vbool (p2.returncode == 0)), ("stdout", .vstr p2.stdout),
                  ("stderr", .vstr p2.stderr)], tr3)

/-- `GitTool.commit`. -/
def commit (git : GitOracle) (message : String) (dry_run : Bool := true) :
    Except String RValue × List Cmd :=
  match ensureRepo git with
  | .error e => (.error e, [])
  | .ok (some err, tr) => (.ok [("ok", .vbool false), ("error", .vstr err)], tr)
  | .ok (none, tr) =>
    if message = "" then
      (.ok [("ok", .vbool false), ("error", .vstr "缺少提交信息")], tr)
    else
      match gitRun git tr ["diff", "--cached", "--name-only"] with
      | .error e => (.error e, tr)
      | .ok (procStaged, tr2) =>
        let staged := splitlinesPy procStaged.stdout.trim
        if staged = [] then
          (.ok [("ok", .vbool false), ("error", .vstr "暂存区为空，无法提交")], tr2)
        else if dry_run then
          (.ok [("ok", .vbool true), ("dry_run", .vbool true),
                ("staged", .vlist staged), ("message", .vstr message)], tr2)
        else
          match gitRun git tr2 ["commit", "-m", message] with
          | .error e => (.error e, tr2)
          | .ok (p2, tr3) =>
            (.ok [("ok", .vbool (p2.returncode == 0)), ("stdout", .vstr p2.stdout),
                  ("stderr", .vstr p2.stderr)], tr3)

/-- `GitTool.switch`. -/
def switch (git : GitOracle) (branch : String) (create : Bool := false)
    (allow_dirty : Bool := false) (dry_run : Bool := true) :
    Except String RValue × List Cmd :=
  match ensureRepo git with
  | .error e => (.error e, [])
  | .ok (some err, tr) => (.ok [("ok", .vbool false), ("error", .vstr err)], tr)
  | .ok (none, tr) =>
    if branch = "" then
      (.ok [("ok", .vbool false), ("error", .vstr "缺少分支名")], tr)
    else
      match gitRun git tr ["status", "--porcelain"] with
      | .error e => (.error e, tr)
      | .ok (procStatus, tr2) =>
        let status := splitlinesPy procStatus.stdout.trim
        if status ≠ [] ∧ ¬ allow_dirty then
          (.ok [("ok", .vbool false),
                ("error", .vstr "当前有未提交改动，默认拒绝切换。可选择先 stash/commit。"),
                ("dirty_files", .vlist status)], tr2)
        else
          let cmd := ["switch"] ++ (if create then ["-c", branch] else [branch])
          if dry_run then
            (.ok [("ok", .vbool true), ("dry_run", .vbool true),
                  ("cmd", .vstr ("git " ++ String.intercalate " " cmd))], tr2)
          else
            match gitRun git tr2 cmd with
            | .error e => (.error e, tr2)
            | .ok (p2, tr3) =>
              (.ok [("ok", .vbool (p2.returncode == 0)), ("stdout", .vstr p2.stdout),
                    ("stderr", .vstr p2.stderr)], tr3)

/-- `GitTool.create_branch`. -/
def create_branch (git : GitOracle) (name : String) (from_ref : String := "HEAD")
    (dry_run : Bool := true) : Except String RValue × List Cmd :=
  match ensureRepo git with
  | .error e => (.error e, [])
  | .ok (some err, tr) => (.ok [("ok", .vbool false), ("error", .vstr err)], tr)
  | .ok (none, tr) =>
    if name = "" then
      (.ok [("ok", .vbool false), ("error", .vstr "缺少分支名")], tr)
    else if dry_run then
      (.ok [("ok", .vbool true), ("dry_run", .vbool true),
            ("cmd", .vstr ("git branch " ++ name ++ " " ++ from_ref))], tr)
    else
      match gitRun git tr ["branch", name, from_ref] with
      | .error e => (.error e, tr)
      | .ok (p2, tr2) =>
        (.ok [("ok", .vbool (p2.returncode == 0)), ("stdout", .vstr p2.stdout),
              ("stderr", .vstr p2.stderr)], tr2)

/-- `GitTool.delete_branch`. -/
def delete_branch (git : GitOracle) (name : String) (force : Bool := false)
    (dry_run : Bool := true) : Except String RValue × List Cmd :=
  match ensureRepo git with
  | .error e => (.error e, [])
  | .ok (some err, tr) => (.ok [("ok", .vbool false), ("error", .vstr err)], tr)
  | .ok (none, tr) =>
    if name = "" then
      (.ok [("ok", .vbool false), ("error", .vstr "缺少分支名")], tr)
    else
      let flag := if force then "-D" else "-d"
      if dry_run then
        (.ok [("ok", .vbool true), ("dry_run", .vbool true),
              ("cmd", .vstr ("git branch " ++ flag ++ " " ++ name))], tr)
      else
        match gitRun git tr ["branch", flag, name] with
        | .error e => (.error e, tr)
        | .ok (p2, tr2) =>
          (.ok [("ok", .vbool (p2.returncode == 0)), ("stdout", .vstr p2.stdout),
                ("stderr", .vstr p2.stderr)], tr2)

/-- `GitTool.stash_push`. -/
def stash_push (git : GitOracle) (message : String := "")
    (dry_run : Bool := true) : Except String RValue × List Cmd :=
  match ensureRepo git with
  | .error e => (.error e, [])
  | .ok (some err, tr) => (.ok [("ok", .vbool false), ("error", .vstr err)], tr)
  | .ok (none, tr) =>
    let cmd := ["stash", "push"] ++ (if message ≠ "" then ["-m", message] else [])
    if dry_run then
      (.ok [("ok", .vbool true), ("dry_run", .vbool true),
            ("cmd", .vstr ("git " ++ String.intercalate " " cmd))], tr)
    else
      match gitRun git tr cmd with
      | .error e => (.error e, tr)
      | .ok (p2, tr2) =>
        (.ok [("ok", .vbool (p2.returncode == 0)), ("stdout", .vstr p2.stdout),
              ("stderr", .vstr p2.stderr)], tr2)

/-- `GitTool.stash_pop`. -/
def stash_pop (git : GitOracle) (index : Int := 0) (dry_run : Bool := true) :
    Except String RValue × List Cmd :=
  match ensureRepo git with
  | .error e => (.error e, [])
  | .ok (some err, tr) => (.ok [("ok", .vbool false), ("error", .vstr err)], tr)
  | .ok (none, tr) =>
    let ref := "stash@\x7b" ++ toString index ++ "\x7d"
    if dry_run then
      (.ok [("ok", .vbool true), ("dry_run", .vbool true),
            ("cmd", .vstr ("git stash pop " ++ ref))], tr)
    else
      match gitRun git tr ["stash", "pop", ref] with
      | .error e => (.error e, tr)
      | .ok (p2, tr2) =>
        (.ok [("ok", .vbool (p2.returncode == 0)), ("stdout", .vstr p2.stdout),
              ("stderr", .vstr p2.stderr)], tr2)

/-- `GitTool.merge`. -/
def merge (git : GitOracle) (target_branch : String) (dry_run : Bool := true) :
    Except String RValue × List Cmd :=
  match ensureRepo git with
  | .error e => (.error e, [])
  | .ok (some err, tr) => (.ok [("ok", .vbool false), ("error", .vstr err)], tr)
  | .ok (none, tr) =>
    if target_branch = "" then
      (.ok [("ok", .vbool false), ("error", .vstr "缺少目标分支")], tr)
    else if dry_run then
      (.ok [("ok", .vbool true), ("dry_run", .vbool true),
            ("cmd", .vstr ("git merge " ++ target_branch))], tr)
    else
      match gitRun git tr ["merge", target_branch] with
      | .error e => (.error e, tr)
      | .ok (p2, tr2) =>
        if p2.returncode ≠ 0 then
          match gitRun git tr2 ["diff", "--name-only", "--diff-filter=U"] with
          | .error e => (.error e, tr2)
          | .ok (p3, tr3) =>
            (.ok [("ok", .vbool false), ("error", .vstr "合并出现冲突"),
                  ("conflicts", .vlist (splitlinesPy p3.stdout)),
                  ("suggestion", .vstr "请手动解决冲突后 git add + git commit。")], tr3)
        else
          (.ok [("ok", .vbool true), ("stdout", .vstr p2.stdout),
                ("stderr", .vstr p2.stderr)], tr2)

end GitTool

/-! ## src/gsa/tools/file_impl.py

`difflib.unified_diff` is abstracted as an oracle `udiff old new path`, the
external `patch` process as an oracle that may transform the filesystem. -/

/-- `FileTool._safe_path`: workspace confinement, then the sensitive-name
check, on the canonicalized target. -/
def safe_path (R : String → String) (workspace path : String) :
    Except String String :=
  match ensure_in_workspace R workspace path with
  | .error e => .error e
  | .ok target =>
    match deny_if_sensitive target with
    | .error e => .error e
    | .ok _ => .ok target

namespace FileTool

/-- `FileTool.write`: confine, compute the unified diff against the current
content (empty for a new file); in dry-run report the diff without touching
the filesystem, otherwise write the file. -/
def write (R : String → String) (udiff : String → String → String → String)
    (workspace : String) (fs : FS) (path content : String)
    (dry_run : Bool := true) : Except String (RValue × FS) :=
  match safe_path R workspace path with
  | .error e => .error e
  | .ok target =>
    let old := fs.read target
    let diff := udiff old content path
    if dry_run then
      .ok ([("ok", .vbool true), ("dry_run", .vbool true), ("diff", .vstr diff)], fs)
    else
      .ok ([("ok", .vbool true), ("diff", .vstr diff)], fs.setFile target content)

/-- `FileTool.patch`: confine; a missing file or an empty diff is an
`ok=false` result; in dry-run report the diff unchanged, otherwise hand the
file to the external `patch` process (which may transform the filesystem). -/
def patch (R : String → String) (runPatch : FS → String → String → Proc × FS)
    (workspace : String) (fs : FS) (path unified_diff : String)
    (dry_run : Bool := true) : Except String (RValue × FS) :=
  match safe_path R workspace path with
  | .error e => .error e
  | .ok target =>
    if ¬ fs.existsFile target then
      .ok ([("ok", .vbool false), ("error", .vstr "文件不存在")], fs)
    else if unified_diff = "" then
      .ok ([("ok", .vbool false), ("error", .vstr "diff 为空")], fs)
    else if dry_run then
      .ok ([("ok", .vbool true), ("dry_run", .vbool true),
            ("diff", .vstr unified_diff)], fs)
    else
      let (proc, fs2) := runPatch fs target unified_diff
      if proc.returncode ≠ 0 then
        .ok ([("ok", .vbool false), ("error", .vstr "diff 无法应用"),
              ("stderr", .vstr proc.stderr)], fs2)
      else
        .ok ([("ok", .vbool true), ("diff", .vstr unified_diff),
              ("stdout", .vstr proc.stdout)], fs2)

end FileTool

/-- `Orchestrator._summarize_results`. -/
def summarize_results (results : List StepResult) : String :=
  if results = [] then "未执行任何步骤。"
  else
    let ok := (results.filter (fun r => r.ok)).length
    "共执行 " ++ toString results.length ++ " 步，成功 " ++ toString ok ++ " 步。"

/-! ## Theorems -/

/-- The success condition of `ensure_in_workspace`: the canonical target is
the workspace root itself, or a descendant (root plus separator prefix). -/
def rootOrDescendant (root target_path : String) : Prop :=
  target_path = root ∨ strStartsWith target_path (root ++ "/")

/-- C2.  For every canonicalizer `R`, workspace root and candidate path,
`ensure_in_workspace` canonicalizes both sides (a relative candidate joined
against the canonical root) and succeeds with the canonical path exactly
when that path is the root or a descendant of `root + "/"`; otherwise it
fails with the path-escape policy error. -/
theorem C2_confine_iff (R : String → String) (workspace target : String) :
    (ensure_in_workspace R workspace target = .ok (canonicalTarget R workspace target)
      ↔ rootOrDescendant (R workspace) (canonicalTarget R workspace target)) ∧
    (ensure_in_workspace R workspace target = .error ("路径越界：" ++ target)
      ↔ ¬ rootOrDescendant (R workspace) (canonicalTarget R workspace target)) := by
  have hmain : ensure_in_workspace R workspace target =
      (if ¬ (strStartsWith (canonicalTarget R workspace target) (R workspace ++ "/")) ∧
          canonicalTarget R workspace target ≠ R workspace
       then .error ("路径越界：" ++ target)
       else .ok (canonicalTarget R workspace target)) := rfl
  rw [hmain]
  unfold rootOrDescendant
  by_cases hc : ¬ (strStartsWith (canonicalTarget R workspace target) (R workspace ++ "/")) ∧
      canonicalTarget R workspace target ≠ R workspace
  · rw [if_pos hc]
    refine ⟨iff_of_false (fun h => nomatch h) ?_, iff_of_true rfl ?_⟩ <;>
      exact fun h => h.elim (fun h1 => hc.2 h1) (fun h2 => hc.1 h2)
  · rw [if_neg hc]
    have hOR : canonicalTarget R workspace target = R workspace ∨
        strStartsWith (canonicalTarget R workspace target) (R workspace ++ "/") := by
      by_cases hs : strStartsWith (canonicalTarget R workspace target) (R workspace ++ "/")
      · exact Or.inr hs
      · exact Or.inl (not_not.mp (fun hne => hc ⟨hs, hne⟩))
    exact ⟨iff_of_true rfl hOR, iff_of_false (fun h => nomatch h) (fun hn => hn hOR)⟩

/-- C2 witness: with the identity canonicalizer, an absolute path outside
the root is rejected with the path-escape error, and a path inside the root
is accepted with its canonical form. -/
theorem C2_confine_iff_witness :
    ensure_in_workspace (fun s => s) "/w" "/etc/passwd"
      = .error ("路径越界：" ++ "/etc/passwd") ∧
    ensure_in_workspace (fun s => s) "/w" "a.txt"
      = .ok (canonicalTarget (fun s => s) "/w" "a.txt") := by
  constructor
  · exact ((C2_confine_iff (fun s => s) "/w" "/etc/passwd").2).mpr
      (by unfold rootOrDescendant; decide)
  · exact ((C2_confine_iff (fun s => s) "/w" "a.txt").1).mpr
      (by unfold rootOrDescendant; decide)

/-- C3.  `apply_confirmation plan false` changes nothing; `apply_confirmation
plan true` rewrites exactly the medium/high steps to `dry_run = false`,
leaving every low-risk step, every other step field, and every other plan
field unchanged. -/
theorem C3_apply_confirmation_exact (plan : Plan) :
    apply_confirmation plan false = plan ∧
    apply_confirmation plan true =
      { plan with steps := plan.steps.map (fun s =>
          if s.safety_level = .low then s else { s with dry_run := false }) } := by
  constructor
  · rfl
  · have hfun : confirmStep = (fun s =>
        if s.safety_level = .low then s else { s with dry_run := false }) := by
      funext s
      cases h : s.safety_level <;> simp [confirmStep, h]
    show { plan with steps := plan.steps.map confirmStep } = _
    rw [hfun]

/-- C4.  Any plan with more than 10 write-classified steps (regardless of
their risk levels) gets the volume error among its validation diagnostics —
returned as a string, never thrown (`validate_plan` is total). -/
theorem C4_write_volume_error (plan : Plan) (registered : List String)
    (h : 10 < (plan.steps.filter (fun s => WRITE_TOOLS.contains s.tool)).length) :
    "单次写操作步骤超过 10，已拒绝" ∈ validate_plan plan registered := by
  have hne : ¬ (plan.steps.filter (fun s => WRITE_TOOLS.contains s.tool) = []) := by
    intro h0
    rw [h0] at h
    simp at h
  have hlim : limit_write_steps
      (plan.steps.filter (fun s => WRITE_TOOLS.contains s.tool)).length
      = .error "单次写操作步骤超过 10，已拒绝" := by
    unfold limit_write_steps
    rw [if_pos h]
  unfold validate_plan
  simp only [hlim, if_neg hne]
  simp [List.mem_append]

/-- C4 witness: a concrete plan of 11 `git_commit` steps (each medium risk)
fails validation with the volume error. -/
theorem C4_write_volume_error_witness :
    10 < ((Plan.mk "demo" [] [] true
        (List.replicate 11 (Step.mk "git_commit" [] .medium "提交" true))).steps.filter
        (fun s => WRITE_TOOLS.contains s.tool)).length ∧
    "单次写操作步骤超过 10，已拒绝" ∈ validate_plan
      (Plan.mk "demo" [] [] true
        (List.replicate 11 (Step.mk "git_commit" [] .medium "提交" true)))
      ["git_commit"] :=
  ⟨by decide, C4_write_volume_error _ ["git_commit"] (by decide)⟩

/-- C5.  A capability name absent from the static risk table is assessed at
exactly medium with the fixed conservative-default reason — in particular
never low. -/
theorem C5_unknown_tool_medium (tool : String) (args : Args)
    (h : RISK_MAP.lookup tool = none) :
    assess_risk tool args = ("medium", "未知工具，默认中风险") ∧
    (assess_risk tool args).1 ≠ "low" := by
  unfold assess_risk
  rw [h]
  exact ⟨rfl, by simp⟩

/-- C5 witness at the unregistered name `"deploy"`. -/
theorem C5_unknown_tool_medium_witness :
    RISK_MAP.lookup "deploy" = none ∧
    assess_risk "deploy" [("target", .vstr "prod")]
      = ("medium", "未知工具，默认中风险") :=
  ⟨by decide, (C5_unknown_tool_medium "deploy" [("target", .vstr "prod")] (by decide)).1⟩

/-- C6.  For every argument map, `assess_risk` on the file-content-writing
capabilities `file_write` and `file_patch` returns level high, and whenever
a (string) target path argument is supplied the returned reason contains
that path as a substring. -/
theorem C6_file_write_always_high (args : Args) :
    (assess_risk "file_write" args).1 = "high" ∧
    (assess_risk "file_patch" args).1 = "high" ∧
    (∀ p, args.get "path" = some (.vstr p) →
      (∃ a b, (assess_risk "file_write" args).2 = a ++ p ++ b) ∧
      (∃ a b, (assess_risk "file_patch" args).2 = a ++ p ++ b)) := by
  have hw : assess_risk "file_write" args =
      (if args.truthyAt "path"
       then ("high", "写入/修改文件 " ++ args.pyStrAt "path")
       else ("high", "写入文件")) := by
    unfold assess_risk
    rw [show RISK_MAP.lookup "file_write" = some ("high", "写入文件") from rfl]
    simp
  have hpch : assess_risk "file_patch" args =
      (if args.truthyAt "path"
       then ("high", "写入/修改文件 " ++ args.pyStrAt "path")
       else ("high", "修改文件")) := by
    unfold assess_risk
    rw [show RISK_MAP.lookup "file_patch" = some ("high", "修改文件") from rfl]
    simp
  refine ⟨?_, ?_, ?_⟩
  · rw [hw]; by_cases hp : args.truthyAt "path" <;> simp [hp]
  · rw [hpch]; by_cases hp : args.truthyAt "path" <;> simp [hp]
  · intro p hp
    by_cases ht : args.truthyAt "path"
    · have hps : args.pyStrAt "path" = p := by
        unfold Args.pyStrAt
        rw [hp]
        rfl
      rw [hw, hpch, if_pos ht, if_pos ht]
      exact ⟨⟨"写入/修改文件 ", "", by simp [hps]⟩, ⟨"写入/修改文件 ", "", by simp [hps]⟩⟩
    · have hpe : p = "" := by
        unfold Args.truthyAt at ht
        rw [hp] at ht
        simpa [Value.truthy] using ht
      rw [hw, hpch, if_neg ht, if_neg ht]
      exact ⟨⟨"写入文件", "", by simp [hpe]⟩, ⟨"修改文件", "", by simp [hpe]⟩⟩

/-- C6 witness: `assess_risk "file_write" {path: "x"}` is high with a reason
containing `"x"`. -/
theorem C6_file_write_always_high_witness :
    (assess_risk "file_write" [("path", .vstr "x")]).1 = "high" ∧
    (∃ a b, (assess_risk "file_write" [("path", .vstr "x")]).2 = a ++ "x" ++ b) :=
  ⟨(C6_file_write_always_high [("path", .vstr "x")]).1,
   ((C6_file_write_always_high [("path", .vstr "x")]).2.2 "x" (by decide)).1⟩

/-- Demo handlers for exercising the registry's duplicate-name behavior. -/
def dupDemoHandler1 : Handler := .varkw (fun _ => [("v", .vint 1)])

/-- Second demo handler, distinguishable from the first by its output. -/
def dupDemoHandler2 : Handler := .varkw (fun _ => [("v", .vint 2)])

/-- A registry in which the same name is registered twice. -/
def dupDemoReg : ToolRegistry :=
  (ToolRegistry.empty.register "demo" "first" dupDemoHandler1).register
    "demo" "second" dupDemoHandler2

/-- C7 counterexample: registering a second handler under an already
registered name is not disallowed — `register` always succeeds, and
afterwards invocation reaches the second handler (last registration silently
wins), as shown concretely for the name `"demo"`. -/
theorem C7_counterexample :
    ((ToolRegistry.empty.register "demo" "first" dupDemoHandler1).call "demo" []
      = .ok [("v", .vint 1)]) ∧
    (dupDemoReg.call "demo" [] = .ok [("v", .vint 2)]) := ⟨rfl, rfl⟩

/-- C7 amended: the registry is a name-keyed map, so it can never hold two
entries with the same name; but a second registration under an existing name
is not rejected — it silently replaces the earlier entry (last registration
wins), and lookups of every other name are unaffected. -/
theorem C7_amended_last_registration_wins (reg : ToolRegistry)
    (name d1 d2 : String) (f1 f2 : Handler) (n : String) :
    ((reg.register name d1 f1).register name d2 f2) n
      = if n = name then some ⟨name, d2, f2⟩ else reg n := by
  unfold ToolRegistry.register
  by_cases h : n = name <;> simp [h]

/-- C8 counterexample: an unparseable stdout line is *skipped* by the
receive loop — the matching response after it is still returned — rather
than being treated as a transport failure as the claim states. -/
theorem C8_counterexample :
    recvLoop 7 [.garbage, .resp 7 none [("ok", .vbool true)]]
      = .result [("ok", .vbool true)] ∧
    recvLoop 7 [.garbage, .resp 7 none [("ok", .vbool true)]]
      ≠ .transportClosed := ⟨rfl, by decide⟩

/-- C8 amended: the receive loop skips any response line whose id does not
match the outstanding request *and* any unparseable line; only channel
closure (end of stream) is a transport failure, raised rather than returned
as a capability result; a matching response yields its result, or raises the
carried error message. -/
theorem C8_amended_recv_behavior (myId : Int) (rest : List Line)
    (j : Int) (e : Option String) (r v : RValue) (m : String) (hj : j ≠ myId) :
    recvLoop myId (.resp j e r :: rest) = recvLoop myId rest ∧
    recvLoop myId (.garbage :: rest) = recvLoop myId rest ∧
    recvLoop myId [] = .transportClosed ∧
    recvLoop myId (.resp myId none v :: rest) = .result v ∧
    recvLoop myId (.resp myId (some m) r :: rest) = .rpcError m := by
  refine ⟨?_, rfl, rfl, ?_, ?_⟩ <;> simp [recvLoop, hj]

/-- C8 amended witness: awaiting id 7, a stray response with id 6 is
discarded and the matching response is still returned. -/
theorem C8_amended_recv_behavior_witness :
    recvLoop 7 [Line.resp 6 none [], Line.resp 7 none [("ok", .vbool true)]]
      = .result [("ok", .vbool true)] := by
  have h1 := C8_amended_recv_behavior 7 [Line.resp 7 none [("ok", .vbool true)]]
    6 none [] [("ok", .vbool true)] "m" (by decide)
  have h2 := C8_amended_recv_behavior 7 [] 6 none [] [("ok", .vbool true)] "m"
    (by decide)
  exact h1.1.trans h2.2.2.2.1

/-- C9.  `ToolRegistry.call` on an unregistered name fails with the
unregistered-capability error; on a fixed-schema handler it passes exactly
the argument entries whose keys the handler declares (extra keys such as a
common `dry_run` flag are dropped, declared keys are all kept); on an
open-ended `**kwargs` handler it passes the full map unfiltered. -/
theorem C9_call_argument_filtering (reg : ToolRegistry) (name : String)
    (args : Args) :
    (reg name = none → reg.call name args = .error ("未注册工具：" ++ name)) ∧
    (∀ spec params f, reg name = some spec → spec.func = .fixed params f →
      reg.call name args = .ok (f (args.filter (fun kv => params.contains kv.1))) ∧
      (∀ kv ∈ args.filter (fun kv => params.contains kv.1), kv.1 ∈ params) ∧
      (∀ kv ∈ args, kv.1 ∈ params →
        kv ∈ args.filter (fun kv => params.contains kv.1))) ∧
    (∀ spec f, reg name = some spec → spec.func = .varkw f →
      reg.call name args = .ok (f args)) := by
  refine ⟨?_, ?_, ?_⟩
  · intro h
    unfold ToolRegistry.call
    rw [h]
  · intro spec params f hs hf
    obtain ⟨n2, d2, func⟩ := spec
    simp only at hf
    subst hf
    refine ⟨?_, ?_, ?_⟩
    · unfold ToolRegistry.call
      rw [hs]
    · intro kv hkv
      have := List.mem_filter.mp hkv
      simpa using this.2
    · intro kv hkv hk
      exact List.mem_filter.mpr ⟨hkv, by simpa using hk⟩
  · intro spec f hs hf
    obtain ⟨n2, d2, func⟩ := spec
    simp only at hf
    subst hf
    unfold ToolRegistry.call
    rw [hs]

/-- The body of the demo fixed-schema handler: reports how many argument
entries it received. -/
def seenCountF : Args → RValue := fun received => [("seen", .vint received.length)]

/-- A demo fixed-schema handler declaring only the `path` parameter. -/
def seenCountHandler : Handler := .fixed ["path"] seenCountF

/-- A registry holding the demo fixed-schema handler. -/
def seenCountReg : ToolRegistry :=
  ToolRegistry.empty.register "file_write" "写入文件" seenCountHandler

/-- C9 witness: calling the fixed-schema handler with an extra `dry_run` key
passes through only the declared `path` key (the handler sees one entry),
and calling an unregistered name fails with the unregistered error. -/
theorem C9_call_argument_filtering_witness :
    seenCountReg.call "file_write"
        [("path", .vstr "a.txt"), ("dry_run", .vbool true)]
      = .ok [("seen", .vint 1)] ∧
    ToolRegistry.empty.call "nope" [] = .error ("未注册工具：" ++ "nope") := by
  constructor
  · have h := ((C9_call_argument_filtering seenCountReg "file_write"
      [("path", .vstr "a.txt"), ("dry_run", .vbool true)]).2.1
      ⟨"file_write", "写入文件", seenCountHandler⟩ ["path"] seenCountF rfl rfl).1
    exact h.trans (by rfl)
  · exact (C9_call_argument_filtering ToolRegistry.empty "nope" []).1 rfl

/-- A `tools/call` round-trip against a local worker: the receive loop on
the worker's single (matching) response line yields exactly what
`invokeVia` models — the registry result, or the raised error message. -/
theorem recvLoop_serverRespond (reg : ToolRegistry) (reqId : Int)
    (name : String) (args : Args) :
    recvLoop reqId [serverRespond reg reqId name args]
      = (match invokeVia reg name args with
         | .ok r => .result r
         | .error e => .rpcError e) := by
  unfold serverRespond invokeVia
  cases h : reg.call name args <;> simp [recvLoop]

/-- Whether an invocation returned normally (rather than raising). -/
def returnsNormally (e : Except String RValue) : Bool :=
  match e with
  | .ok _ => true
  | .error _ => false

/-- The returned result map of a normal return, `none` for a raise. -/
def returnedValue (e : Except String RValue) : Option RValue :=
  match e with
  | .ok r => some r
  | .error _ => none

/-- The closed-form result list of the orchestrator's step loop: one success
entry per step of the longest prefix whose invocations return normally,
followed by one failure entry for the first step whose invocation raises
(if any). -/
def haltResultsSpec (invoke : String → Args → Except String RValue)
    (steps : List Step) : List StepResult :=
  ((steps.takeWhile (fun s => returnsNormally (stepCall invoke s))).map
    (fun s => ⟨s.tool, true, returnedValue (stepCall invoke s), none⟩)) ++
  (match steps.dropWhile (fun s => returnsNormally (stepCall invoke s)) with
   | [] => []
   | s :: _ =>
     match stepCall invoke s with
     | .ok _ => []
     | .error e => [⟨s.tool, false, none, some e⟩])

/-- The closed-form invocation trace: exactly the tools of the steps that
contribute a result entry are invoked, in order; steps after the first
raising step are never invoked. -/
def haltTraceSpec (invoke : String → Args → Except String RValue)
    (steps : List Step) : List String :=
  ((steps.takeWhile (fun s => returnsNormally (stepCall invoke s))).map
    (fun s => s.tool)) ++
  (match steps.dropWhile (fun s => returnsNormally (stepCall invoke s)) with
   | [] => []
   | s :: _ => [s.tool])


/-- Unfolding `haltResultsSpec` over a step whose invocation returns
normally: one success entry, then the spec of the remaining steps. -/
theorem haltResultsSpec_cons_ok (invoke : String → Args → Except String RValue)
    (s : Step) (rest : List Step) (r : RValue) (h : stepCall invoke s = .ok r) :
    haltResultsSpec invoke (s :: rest)
      = ⟨s.tool, true, some r, none⟩ :: haltResultsSpec invoke rest := by
  unfold haltResultsSpec
  simp only [List.takeWhile_cons, List.dropWhile_cons, h, returnsNormally]
  simp [h, returnedValue]

/-- Unfolding `haltResultsSpec` over a step whose invocation raises: the
single failure entry, and nothing after it. -/
theorem haltResultsSpec_cons_error (invoke : String → Args → Except String RValue)
    (s : Step) (rest : List Step) (e : String) (h : stepCall invoke s = .error e) :
    haltResultsSpec invoke (s :: rest) = [⟨s.tool, false, none, some e⟩] := by
  unfold haltResultsSpec
  simp only [List.takeWhile_cons, List.dropWhile_cons, h, returnsNormally]
  simp [h]

/-- Unfolding `haltTraceSpec` over a normally-returning step. -/
theorem haltTraceSpec_cons_ok (invoke : String → Args → Except String RValue)
    (s : Step) (rest : List Step) (r : RValue) (h : stepCall invoke s = .ok r) :
    haltTraceSpec invoke (s :: rest) = s.tool :: haltTraceSpec invoke rest := by
  unfold haltTraceSpec
  simp only [List.takeWhile_cons, List.dropWhile_cons, h, returnsNormally]
  simp

/-- Unfolding `haltTraceSpec` over a raising step. -/
theorem haltTraceSpec_cons_error (invoke : String → Args → Except String RValue)
    (s : Step) (rest : List Step) (e : String) (h : stepCall invoke s = .error e) :
    haltTraceSpec invoke (s :: rest) = [s.tool] := by
  unfold haltTraceSpec
  simp only [List.takeWhile_cons, List.dropWhile_cons, h, returnsNormally]
  simp

/-- C1 amended: `execute` runs the confirmation gate, then the steps
strictly sequentially in list order, halting immediately on the first
invocation that *raises* (a transport failure or an error response, e.g. an
unregistered tool or a handler exception): the results are exactly one
success entry per step before the first raising step plus one failure entry
for it, and the invoked capabilities are exactly the tools of those entries
— no later step is ever invoked.  A handler returning normally with
`ok=false` in its result map is recorded as a success entry (`ok=True`
wrapping the result map) and does not halt execution. -/
theorem C1_amended_halt_on_raise (invoke : String → Args → Except String RValue)
    (plan : Plan) (confirmed : Bool) :
    Orchestrator.execute invoke plan confirmed
      = (haltResultsSpec invoke (apply_confirmation plan confirmed).steps,
         haltTraceSpec invoke (apply_confirmation plan confirmed).steps) ∧
    (Orchestrator.execute invoke plan confirmed).2
      = (Orchestrator.execute invoke plan confirmed).1.map (fun r => r.tool) := by
  have key : ∀ steps : List Step, executeSteps invoke steps
      = (haltResultsSpec invoke steps, haltTraceSpec invoke steps) := by
    intro steps
    induction steps with
    | nil => rfl
    | cons s rest ih =>
      cases h : stepCall invoke s with
      | ok r =>
        rw [haltResultsSpec_cons_ok invoke s rest r h,
          haltTraceSpec_cons_ok invoke s rest r h]
        unfold executeSteps
        rw [h, ih]
      | error e =>
        rw [haltResultsSpec_cons_error invoke s rest e h,
          haltTraceSpec_cons_error invoke s rest e h]
        unfold executeSteps
        rw [h]
  have tkey : ∀ steps : List Step, haltTraceSpec invoke steps
      = (haltResultsSpec invoke steps).map (fun r => r.tool) := by
    intro steps
    induction steps with
    | nil => rfl
    | cons s rest ih =>
      cases h : stepCall invoke s with
      | ok r =>
        rw [haltResultsSpec_cons_ok invoke s rest r h,
          haltTraceSpec_cons_ok invoke s rest r h, List.map_cons, ih]
      | error e =>
        rw [haltResultsSpec_cons_error invoke s rest e h,
          haltTraceSpec_cons_error invoke s rest e h, List.map_cons, List.map_nil]
  constructor
  · exact key (apply_confirmation plan confirmed).steps
  · show (executeSteps invoke (apply_confirmation plan confirmed).steps).2
        = (executeSteps invoke (apply_confirmation plan confirmed).steps).1.map
            (fun r => r.tool)
    rw [key (apply_confirmation plan confirmed).steps]
    exact tkey (apply_confirmation plan confirmed).steps

/-- A demo handler that reports success. -/
def seqDemoOkHandler : Handler := .varkw (fun _ => [("ok", .vbool true)])

/-- A demo handler that reports failure in its result map (a normal return
with `ok=false`, not a raised error). -/
def seqDemoFailHandler : Handler :=
  .varkw (fun _ => [("ok", .vbool false), ("error", .vstr "boom")])

/-- A worker registry with three tools, the second of which reports
`ok=false`. -/
def seqDemoReg : ToolRegistry :=
  ((ToolRegistry.empty.register "t1" "第一步" seqDemoOkHandler).register
    "t2" "第二步" seqDemoFailHandler).register "t3" "第三步" seqDemoOkHandler

/-- A three-step plan over those tools. -/
def seqDemoPlan : Plan :=
  ⟨"demo", [], [], false,
   [⟨"t1", [], .low, "只读操作", true⟩, ⟨"t2", [], .low, "只读操作", true⟩,
    ⟨"t3", [], .low, "只读操作", true⟩]⟩

/-- C1 counterexample: with step 2's handler returning `ok=false` (a normal
return), `execute` records *three* entries — all marked `ok=True` — and
invokes step 3's capability, contradicting the claim that it returns exactly
two entries (step 2 recorded as a failure) and never attempts step 3. -/
theorem C1_counterexample :
    ((Orchestrator.execute (invokeVia seqDemoReg) seqDemoPlan false).1.map
      (fun r => (r.tool, r.ok)) = [("t1", true), ("t2", true), ("t3", true)]) ∧
    ((Orchestrator.execute (invokeVia seqDemoReg) seqDemoPlan false).2
      = ["t1", "t2", "t3"]) ∧
    ((Orchestrator.execute (invokeVia seqDemoReg) seqDemoPlan false).1.length = 3) :=
  ⟨rfl, rfl, rfl⟩

/-! ## C10 support: dry-run behavior of the write-classified handlers -/

/-- The read-only git queries a handler may issue before its dry-run check:
repository detection and status/staging inspection.  None of them mutates
repository state. -/
def GIT_READ_QUERIES : List Cmd :=
  [ ["rev-parse", "--is-inside-work-tree"],
    ["status", "--porcelain"],
    ["diff", "--cached", "--name-only"] ]

/-- Dry-run good behavior of a git handler invocation: every git command it
issued is a read-only query (so repository state is untouched), and any
successful (`ok=True`) result map is explicitly marked `dry_run=True`. -/
def gitDryBehaved (r : Except String RValue × List Cmd) : Prop :=
  (∀ c ∈ r.2, c ∈ GIT_READ_QUERIES) ∧
  (∀ rv, r.1 = .ok rv → rv.lookup "ok" = some (.vbool true) →
    rv.lookup "dry_run" = some (.vbool true))

/-- Dry-run good behavior of a file handler invocation: the filesystem is
returned unchanged, and any successful result map is marked `dry_run=True`. -/
def fileDryBehaved (fs : FS) (r : Except String (RValue × FS)) : Prop :=
  ∀ rv fs2, r = .ok (rv, fs2) → fs2 = fs ∧
    (rv.lookup "ok" = some (.vbool true) → rv.lookup "dry_run" = some (.vbool true))

/-- A raised policy error carries no result map to mark. -/
theorem dryResOfError (e : String) :
    ∀ rv, (Except.error e : Except String RValue) = .ok rv →
      rv.lookup "ok" = some (.vbool true) →
      rv.lookup "dry_run" = some (.vbool true) :=
  fun _ h => nomatch h

/-- A result map reporting `ok=False` is never a successful result. -/
theorem dryResOfFalse (rest : RValue) :
    ∀ rv, (Except.ok (("ok", Value.vbool false) :: rest) : Except String RValue)
        = .ok rv →
      rv.lookup "ok" = some (.vbool true) →
      rv.lookup "dry_run" = some (.vbool true) := by
  intro rv h hok
  cases h
  exact nomatch hok

/-- A dry-run result map is marked `dry_run=True`. -/
theorem dryResOfDry (rest : RValue) :
    ∀ rv, (Except.ok (("ok", Value.vbool true) :: ("dry_run", Value.vbool true)
        :: rest) : Except String RValue) = .ok rv →
      rv.lookup "ok" = some (.vbool true) →
      rv.lookup "dry_run" = some (.vbool true) := by
  intro rv h _
  cases h
  rfl

/-- An empty command trace is trivially read-only. -/
theorem traceNone : ∀ c ∈ ([] : List Cmd), c ∈ GIT_READ_QUERIES := by
  intro c hc
  exact absurd hc (List.not_mem_nil c)

/-- The repository-detection query alone is read-only. -/
theorem traceRevParse :
    ∀ c ∈ [["rev-parse", "--is-inside-work-tree"]], c ∈ GIT_READ_QUERIES := by
  intro c hc
  rw [List.mem_singleton] at hc
  subst hc
  decide

/-- Repository detection followed by a porcelain status query is read-only. -/
theorem traceRevParseStatus :
    ∀ c ∈ [["rev-parse", "--is-inside-work-tree"], ["status", "--porcelain"]],
      c ∈ GIT_READ_QUERIES := by
  intro c hc
  simp only [List.mem_cons, List.not_mem_nil, or_false] at hc
  rcases hc with h | h <;> (subst h; decide)

/-- Repository detection followed by a staged-files query is read-only. -/
theorem traceRevParseStaged :
    ∀ c ∈ [["rev-parse", "--is-inside-work-tree"],
        ["diff", "--cached", "--name-only"]], c ∈ GIT_READ_QUERIES := by
  intro c hc
  simp only [List.mem_cons, List.not_mem_nil, or_false] at hc
  rcases hc with h | h <;> (subst h; decide)

/-- Closed form of `_ensure_repo`: the policy check on the constant
repository-detection command passes, so the handler observes the oracle's
returncode and issues exactly that one query. -/
theorem ensureRepo_eq (git : GitOracle) :
    ensureRepo git = .ok
      (if (git ["rev-parse", "--is-inside-work-tree"]).returncode ≠ 0
       then some (strOr (git ["rev-parse", "--is-inside-work-tree"]).stderr.trim
         "当前目录不是 git 仓库")
       else none,
       [["rev-parse", "--is-inside-work-tree"]]) := rfl

/-- `GitTool.delete_branch` invoked without `dry_run` issues only the
repository-detection query and marks any success as a dry run. -/
theorem gitDry_delete_branch (git : GitOracle) (name : String) (force : Bool) :
    gitDryBehaved (GitTool.delete_branch git name force) := by
  unfold GitTool.delete_branch
  rw [ensureRepo_eq]
  by_cases hrc : (git ["rev-parse", "--is-inside-work-tree"]).returncode ≠ 0
  · rw [if_pos hrc]
    exact ⟨traceRevParse, dryResOfFalse _⟩
  · rw [if_neg hrc]
    by_cases hname : name = ""
    · simp only [if_pos hname]
      exact ⟨traceRevParse, dryResOfFalse _⟩
    · simp only [if_neg hname]
      exact ⟨traceRevParse, dryResOfDry _⟩

/-- `GitTool.init_repo` invoked without `dry_run` issues only the
repository-detection query and marks any success as a dry run. -/
theorem gitDry_init_repo (git : GitOracle) :
    gitDryBehaved (GitTool.init_repo git) := by
  unfold GitTool.init_repo
  rw [show gitRun git [] ["rev-parse", "--is-inside-work-tree"]
      = .ok (git ["rev-parse", "--is-inside-work-tree"],
        [["rev-parse", "--is-inside-work-tree"]]) from rfl]
  by_cases hrc : (git ["rev-parse", "--is-inside-work-tree"]).returncode == 0
  · simp only [if_pos hrc]
    exact ⟨traceRevParse, dryResOfFalse _⟩
  · simp only [if_neg hrc]
    exact ⟨traceRevParse, dryResOfDry _⟩

/-- `GitTool.add` invoked without `dry_run` issues only repository-detection
and porcelain-status queries and marks any success as a dry run. -/
theorem gitDry_add (git : GitOracle) (paths : List String) (allow_all : Bool) :
    gitDryBehaved (GitTool.add git paths allow_all) := by
  unfold GitTool.add
  rw [ensureRepo_eq]
  by_cases hrc : (git ["rev-parse", "--is-inside-work-tree"]).returncode ≠ 0
  · rw [if_pos hrc]
    exact ⟨traceRevParse, dryResOfFalse _⟩
  · rw [if_neg hrc]
    by_cases hp : paths = []
    · simp only [if_pos hp]
      exact ⟨traceRevParse, dryResOfFalse _⟩
    · simp only [if_neg hp]
      by_cases hdot : paths.contains "." ∧ ¬ allow_all
      · simp only [if_pos hdot]
        exact ⟨traceRevParse, dryResOfFalse _⟩
      · simp only [if_neg hdot]
        rw [show gitRun git [["rev-parse", "--is-inside-work-tree"]]
            ["status", "--porcelain"]
            = .ok (git ["status", "--porcelain"],
              [["rev-parse", "--is-inside-work-tree"], ["status", "--porcelain"]])
          from rfl]
        exact ⟨traceRevParseStatus, dryResOfDry _⟩

/-- `GitTool.commit` invoked without `dry_run` issues only repository
detection and the staged-files query and marks any success as a dry run. -/
theorem gitDry_commit (git : GitOracle) (message : String) :
    gitDryBehaved (GitTool.commit git message) := by
  unfold GitTool.commit
  rw [ensureRepo_eq]
  by_cases hrc : (git ["rev-parse", "--is-inside-work-tree"]).returncode ≠ 0
  · rw [if_pos hrc]
    exact ⟨traceRevParse, dryResOfFalse _⟩
  · rw [if_neg hrc]
    by_cases hmsg : message = ""
    · simp only [if_pos hmsg]
      exact ⟨traceRevParse, dryResOfFalse _⟩
    · simp only [if_neg hmsg]
      rw [show gitRun git [["rev-parse", "--is-inside-work-tree"]]
          ["diff", "--cached", "--name-only"]
          = .ok (git ["diff", "--cached", "--name-only"],
            [["rev-parse", "--is-inside-work-tree"],
             ["diff", "--cached", "--name-only"]])
        from rfl]
      by_cases hst : splitlinesPy (git ["diff", "--cached", "--name-only"]).stdout.trim = []
      · simp only [if_pos hst]
        exact ⟨traceRevParseStaged, dryResOfFalse _⟩
      · simp only [if_neg hst]
        exact ⟨traceRevParseStaged, dryResOfDry _⟩

/-- `GitTool.switch` invoked without `dry_run` issues only repository
detection and the porcelain-status query and marks any success as a dry
run. -/
theorem gitDry_switch (git : GitOracle) (branch : String)
    (create allow_dirty : Bool) :
    gitDryBehaved (GitTool.switch git branch create allow_dirty) := by
  unfold GitTool.switch
  rw [ensureRepo_eq]
  by_cases hrc : (git ["rev-parse", "--is-inside-work-tree"]).returncode ≠ 0
  · rw [if_pos hrc]
    exact ⟨traceRevParse, dryResOfFalse _⟩
  · rw [if_neg hrc]
    by_cases hbr : branch = ""
    · simp only [if_pos hbr]
      exact ⟨traceRevParse, dryResOfFalse _⟩
    · simp only [if_neg hbr]
      rw [show gitRun git [["rev-parse", "--is-inside-work-tree"]]
          ["status", "--porcelain"]
          = .ok (git ["status", "--porcelain"],
            [["rev-parse", "--is-inside-work-tree"], ["status", "--porcelain"]])
        from rfl]
      by_cases hdirty : splitlinesPy (git ["status", "--porcelain"]).stdout.trim ≠ []
          ∧ ¬ allow_dirty
      · simp only [if_pos hdirty]
        exact ⟨traceRevParseStatus, dryResOfFalse _⟩
      · simp only [if_neg hdirty]
        exact ⟨traceRevParseStatus, dryResOfDry _⟩

/-- `GitTool.create_branch` invoked without `dry_run` issues only the
repository-detection query and marks any success as a dry run. -/
theorem gitDry_create_branch (git : GitOracle) (name from_ref : String) :
    gitDryBehaved (GitTool.create_branch git name from_ref) := by
  unfold GitTool.create_branch
  rw [ensureRepo_eq]
  by_cases hrc : (git ["rev-parse", "--is-inside-work-tree"]).returncode ≠ 0
  · rw [if_pos hrc]
    exact ⟨traceRevParse, dryResOfFalse _⟩
  · rw [if_neg hrc]
    by_cases hname : name = ""
    · simp only [if_pos hname]
      exact ⟨traceRevParse, dryResOfFalse _⟩
    · simp only [if_neg hname]
      exact ⟨traceRevParse, dryResOfDry _⟩

/-- `GitTool.stash_push` invoked without `dry_run` issues only the
repository-detection query and marks any success as a dry run. -/
theorem gitDry_stash_push (git : GitOracle) (message : String) :
    gitDryBehaved (GitTool.stash_push git message) := by
  unfold GitTool.stash_push
  rw [ensureRepo_eq]
  by_cases hrc : (git ["rev-parse", "--is-inside-work-tree"]).returncode ≠ 0
  · rw [if_pos hrc]
    exact ⟨traceRevParse, dryResOfFalse _⟩
  · rw [if_neg hrc]
    exact ⟨traceRevParse, dryResOfDry _⟩

/-- `GitTool.stash_pop` invoked without `dry_run` issues only the
repository-detection query and marks any success as a dry run. -/
theorem gitDry_stash_pop (git : GitOracle) (index : Int) :
    gitDryBehaved (GitTool.stash_pop git index) := by
  unfold GitTool.stash_pop
  rw [ensureRepo_eq]
  by_cases hrc : (git ["rev-parse", "--is-inside-work-tree"]).returncode ≠ 0
  · rw [if_pos hrc]
    exact ⟨traceRevParse, dryResOfFalse _⟩
  · rw [if_neg hrc]
    exact ⟨traceRevParse, dryResOfDry _⟩

/-- `GitTool.merge` invoked without `dry_run` issues only the
repository-detection query and marks any success as a dry run. -/
theorem gitDry_merge (git : GitOracle) (target_branch : String) :
    gitDryBehaved (GitTool.merge git target_branch) := by
  unfold GitTool.merge
  rw [ensureRepo_eq]
  by_cases hrc : (git ["rev-parse", "--is-inside-work-tree"]).returncode ≠ 0
  · rw [if_pos hrc]
    exact ⟨traceRevParse, dryResOfFalse _⟩
  · rw [if_neg hrc]
    by_cases htb : target_branch = ""
    · simp only [if_pos htb]
      exact ⟨traceRevParse, dryResOfFalse _⟩
    · simp only [if_neg htb]
      exact ⟨traceRevParse, dryResOfDry _⟩

/-- `FileTool.write` invoked without `dry_run` returns the filesystem
unchanged and marks its (confined) result as a dry run. -/
theorem fileDry_write (R : String → String)
    (udiff : String → String → String → String) (workspace : String)
    (fs : FS) (path content : String) :
    fileDryBehaved fs (FileTool.write R udiff workspace fs path content) := by
  unfold FileTool.write
  cases hsp : safe_path R workspace path with
  | error e => exact fun rv fs2 h => nomatch h
  | ok target => exact fun rv fs2 h => by cases h; exact ⟨rfl, fun _ => rfl⟩

/-- `FileTool.patch` invoked without `dry_run` returns the filesystem
unchanged and marks any success as a dry run. -/
theorem fileDry_patch (R : String → String)
    (runPatch : FS → String → String → Proc × FS) (workspace : String)
    (fs : FS) (path unified_diff : String) :
    fileDryBehaved fs (FileTool.patch R runPatch workspace fs path unified_diff) := by
  unfold FileTool.patch
  cases hsp : safe_path R workspace path with
  | error e => exact fun rv fs2 h => nomatch h
  | ok target =>
    by_cases hex : ¬ fs.existsFile target
    · simp only [if_pos hex]
      exact fun rv fs2 h => by cases h; exact ⟨rfl, fun hok => nomatch hok⟩
    · simp only [if_neg hex]
      by_cases hud : unified_diff = ""
      · simp only [if_pos hud]
        exact fun rv fs2 h => by cases h; exact ⟨rfl, fun hok => nomatch hok⟩
      · simp only [if_neg hud]
        exact fun rv fs2 h => by cases h; exact ⟨rfl, fun _ => rfl⟩

/-- C10.  Every write-classified capability handler (the nine git mutation
tools and `file_write`/`file_patch`) declares its `dry_run` parameter with
default `true` — each call below omits `dry_run`, so the Lean optional
argument mirrors the omitted Python keyword — and such an invocation only
computes and reports the would-be effect: every successful result map is
explicitly marked `dry_run=True`, the git handlers issue only read-only
queries (so repository state is untouched), and the file handlers return
the filesystem unchanged.  A real effect requires passing `dry_run=false`
explicitly. -/
theorem C10_write_handlers_dry_by_default (git : GitOracle)
    (R : String → String) (udiff : String → String → String → String)
    (runPatch : FS → String → String → Proc × FS) (workspace : String)
    (fs : FS) (paths : List String) (allow_all create allow_dirty force : Bool)
    (message branch name from_ref target_branch path content
     unified_diff : String) (index : Int) :
    gitDryBehaved (GitTool.init_repo git) ∧
    gitDryBehaved (GitTool.add git paths allow_all) ∧
    gitDryBehaved (GitTool.commit git message) ∧
    gitDryBehaved (GitTool.switch git branch create allow_dirty) ∧
    gitDryBehaved (GitTool.create_branch git name from_ref) ∧
    gitDryBehaved (GitTool.delete_branch git name force) ∧
    gitDryBehaved (GitTool.stash_push git message) ∧
    gitDryBehaved (GitTool.stash_pop git index) ∧
    gitDryBehaved (GitTool.merge git target_branch) ∧
    fileDryBehaved fs (FileTool.write R udiff workspace fs path content) ∧
    fileDryBehaved fs (FileTool.patch R runPatch workspace fs path unified_diff) :=
  ⟨gitDry_init_repo git, gitDry_add git paths allow_all, gitDry_commit git message,
   gitDry_switch git branch create allow_dirty,
   gitDry_create_branch git name from_ref, gitDry_delete_branch git name force,
   gitDry_stash_push git message, gitDry_stash_pop git index,
   gitDry_merge git target_branch,
   fileDry_write R udiff workspace fs path content,
   fileDry_patch R runPatch workspace fs path unified_diff⟩

/-- A stub git oracle whose every command succeeds with empty output. -/
def gitStub : GitOracle := fun _ => ⟨0, "", ""⟩

/-- A stub unified-diff oracle. -/
def udiffStub : String → String → String → String := fun _ _ _ => "<diff>"

/-- A stub external `patch` process (never reached under dry-run). -/
def patchStub : FS → String → String → Proc × FS := fun fs _ _ => (⟨0, "", ""⟩, fs)

/-- C10 witness: concrete dry-by-default invocations — `delete_branch`
issues exactly the read-only repository-detection query and returns a
dry-marked success, and `file_write` returns a dry-marked success with the
filesystem unchanged. -/
theorem C10_write_handlers_dry_by_default_witness :
    (GitTool.delete_branch gitStub "feat" false).2
      = [["rev-parse", "--is-inside-work-tree"]] ∧
    ["rev-parse", "--is-inside-work-tree"] ∈ GIT_READ_QUERIES ∧
    (GitTool.delete_branch gitStub "feat" false).1
      = .ok [("ok", .vbool true), ("dry_run", .vbool true),
             ("cmd", .vstr "git branch -d feat")] ∧
    FileTool.write (fun s => s) udiffStub "/w" ⟨[]⟩ "a.txt" "hello"
      = .ok ([("ok", .vbool true), ("dry_run", .vbool true),
              ("diff", .vstr "<diff>")], ⟨[]⟩) ∧
    (∀ rv fs2, FileTool.write (fun s => s) udiffStub "/w" ⟨[]⟩ "a.txt" "hello"
      = .ok (rv, fs2) → fs2 = (⟨[]⟩ : FS)) := by
  refine ⟨rfl, ?_, rfl, rfl, ?_⟩
  · exact (C10_write_handlers_dry_by_default gitStub (fun s => s) udiffStub
      patchStub "/w" ⟨[]⟩ [] false false false false "" "" "feat" "HEAD" "" "a.txt"
      "hello" "" 0).2.2.2.2.2.1.1 ["rev-parse", "--is-inside-work-tree"] (by decide)
  · intro rv fs2 h
    exact ((C10_write_handlers_dry_by_default gitStub (fun s => s) udiffStub
      patchStub "/w" ⟨[]⟩ [] false false false false "" "" "feat" "HEAD" "" "a.txt"
      "hello" "" 0).2.2.2.2.2.2.2.2.2.1 rv fs2 h).1
